import Mathlib

/-!
Verification of the voice-chat-ai Live Session Client.

This file shallowly embeds the repository's core logic in Lean 4:

* the error classifier `parseError` of `src/components/VoiceChat.tsx`;
* the socket-close handler of `GeminiLiveClient.connect` (`src/lib/gemini.ts`);
* the inbound-frame demultiplexer `handleMessage`;
* the audio playback pipeline (`queueAudio` / `playQueuedAudio`) as an
  event-loop transition system;
* `sendText`, the UI-level `sendMessage`, `disconnect`;
* the base64 codec (`arrayBufferToBase64` of the capture path, and
  `base64ToArrayBuffer` of the playback path, both delegating to the
  browser builtins `btoa` / `atob`, which are modelled here as standard
  RFC-4648 base64 with padding);
* the credential provider `getApiConfig` of the server function file.

JavaScript strings are modelled as `String` (or `List Char` where character
level work is needed), byte buffers as `List Nat` with every element `< 256`,
and JavaScript truthiness of optional strings as "present and non-empty".
Fallible operations return `Option`/`Except`.
-/

/-! ### JavaScript `String.prototype.includes` -/

/-- Predicate `listStartsWith l kw`: true when `kw` is an initial segment of `l`. -/
def listStartsWith : List Char → List Char → Bool
  | _, [] => true
  | [], _ :: _ => false
  | c :: cs, k :: ks => c == k && listStartsWith cs ks

/-- Predicate `occursIn kw l`: true when `kw` occurs contiguously inside `l`. -/
def occursIn (kw : List Char) : List Char → Bool
  | [] => listStartsWith [] kw
  | c :: cs => listStartsWith (c :: cs) kw || occursIn kw cs

/-- Model of JavaScript `s.includes(sub)`: case-sensitive contiguous
substring containment. -/
def jsIncludes (s sub : String) : Bool := occursIn sub.toList s.toList

/-! ### Error classifier (`parseError`, `src/components/VoiceChat.tsx`) -/

/-- The `ConnectionError` record of `VoiceChat.tsx`. -/
structure ConnectionError where
  message : String
  details : String
  recoverable : Bool
deriving Repr, DecidableEq

/-- Shallow embedding of `parseError` from `src/components/VoiceChat.tsx`
(lines 33–87): six rules tried in order, first match wins, matching by
JavaScript's case-sensitive `String.includes`. -/
def parseError (message : String) : ConnectionError :=
  if jsIncludes message "API_KEY" || jsIncludes message "apiKey" ||
      jsIncludes message "environment variable" then
    ⟨"API Key Not Configured",
     "The Gemini API key is not set up. Please contact the administrator.",
     false⟩
  else if jsIncludes message "WebSocket" || jsIncludes message "connection" ||
      jsIncludes message "network" then
    ⟨"Connection Failed",
     "Unable to connect to the AI service. Check your internet connection and try again.",
     true⟩
  else if jsIncludes message "401" || jsIncludes message "403" ||
      jsIncludes message "unauthorized" || jsIncludes message "forbidden" then
    ⟨"Authentication Error",
     "The API key may be invalid or expired. Please contact the administrator.",
     false⟩
  else if jsIncludes message "429" || jsIncludes message "rate" ||
      jsIncludes message "quota" then
    ⟨"Rate Limited",
     "Too many requests. Please wait a moment and try again.",
     true⟩
  else if jsIncludes message "model" || jsIncludes message "not found" ||
      jsIncludes message "unavailable" then
    ⟨"Service Unavailable",
     "The AI model is currently unavailable. Please try again later.",
     true⟩
  else
    ⟨"Connection Error",
     if message = "" then "An unexpected error occurred. Please try again." else message,
     true⟩

/-- Case-insensitive variant of `jsIncludes`, used to state the spec's
claim that `parseError` matches case-insensitively. -/
def jsIncludesCI (s sub : String) : Bool :=
  occursIn (sub.toList.map Char.toLower) (s.toList.map Char.toLower)

/-- Classifier following the spec's words ("case-insensitive substring
matching", same six rules in the same order), to be compared with the
source-derived `parseError`. -/
def parseErrorSpecCI (message : String) : ConnectionError :=
  if jsIncludesCI message "API_KEY" || jsIncludesCI message "apiKey" ||
      jsIncludesCI message "environment variable" then
    ⟨"API Key Not Configured",
     "The Gemini API key is not set up. Please contact the administrator.",
     false⟩
  else if jsIncludesCI message "WebSocket" || jsIncludesCI message "connection" ||
      jsIncludesCI message "network" then
    ⟨"Connection Failed",
     "Unable to connect to the AI service. Check your internet connection and try again.",
     true⟩
  else if jsIncludesCI message "401" || jsIncludesCI message "403" ||
      jsIncludesCI message "unauthorized" || jsIncludesCI message "forbidden" then
    ⟨"Authentication Error",
     "The API key may be invalid or expired. Please contact the administrator.",
     false⟩
  else if jsIncludesCI message "429" || jsIncludesCI message "rate" ||
      jsIncludesCI message "quota" then
    ⟨"Rate Limited",
     "Too many requests. Please wait a moment and try again.",
     true⟩
  else if jsIncludesCI message "model" || jsIncludesCI message "not found" ||
      jsIncludesCI message "unavailable" then
    ⟨"Service Unavailable",
     "The AI model is currently unavailable. Please try again later.",
     true⟩
  else
    ⟨"Connection Error",
     if message = "" then "An unexpected error occurred. Please try again." else message,
     true⟩

example : (parseError "HTTP 429").message = "Rate Limited" := by decide
example : (parseError "connection 429").message = "Connection Failed" := by decide
example : (parseError "NETWORK").message = "Connection Error" := by decide
example : (parseErrorSpecCI "NETWORK").message = "Connection Failed" := by decide

/-! ### Socket close handler (`connect`'s `onclose`, `src/lib/gemini.ts`) -/

/-- A DOM `CloseEvent`, as consumed by the `onclose` callback. -/
structure JsCloseEvent where
  code : Nat
  reason : String
  wasClean : Bool
deriving Repr, DecidableEq

/-- The message composed by the `onclose` callback of
`GeminiLiveClient.connect` (gemini.ts lines 63–89): a default of
`"Connection closed"`, overridden by the code-specific branches, with a
reason pass-through branch guarded by JavaScript truthiness of
`event.reason`. -/
def oncloseMessage (e : JsCloseEvent) : String :=
  if e.code = 1000 then "Connection closed normally"
  else if e.code = 1006 then
    "Connection closed abnormally - possible network issue or invalid API key"
  else if e.code = 1008 then "Policy violation - check your API key permissions"
  else if e.code = 1011 then "Server error - the Gemini service encountered an issue"
  else if e.reason ≠ "" then "Connection closed: " ++ e.reason
  else "Connection closed"

/-- Full effect of the `onclose` callback: `onError` is invoked (with the
composed message) exactly when the close code is not 1000, and
`onStatusChange('disconnected')` always fires.  The first component is the
argument of the `onError` call, if any; the second the status reported. -/
def onclose (e : JsCloseEvent) : Option String × String :=
  (if e.code ≠ 1000 then some (oncloseMessage e) else none, "disconnected")

/-! ### `sendText` (gemini.ts) and the UI's `sendMessage` (VoiceChat.tsx) -/

/-- A chat message as observed through `onMessage`; the locally generated
`id` and `timestamp` are not modelled (they are fresh-UUID/now). -/
structure ChatMsg where
  role : String
  content : String
deriving Repr, DecidableEq

/-- One turn of the outbound `sendClientContent` payload. -/
structure OutboundTurn where
  role : String
  parts : List String
deriving Repr, DecidableEq

/-- The outbound `sendClientContent` payload shape. -/
structure ClientContent where
  turns : List OutboundTurn
  turnComplete : Bool
deriving Repr, DecidableEq

/-- An externally visible side effect of the client. -/
inductive ClientEffect where
  | emit (m : ChatMsg)
  | send (c : ClientContent)
deriving Repr, DecidableEq

/-- The mutable fields of `GeminiLiveClient` that `sendText` can read or
write.  The session is `some ()` when open. -/
structure ClientState where
  session : Option Unit
  audioQueue : List (List Nat)
  isPlaying : Bool
deriving Repr, DecidableEq

/-- Shallow embedding of `GeminiLiveClient.sendText` (gemini.ts lines
201–230): with no session it throws `"Not connected to Gemini"` before any
side effect; with a session it first emits the optimistic user `ChatMessage`
and then forwards the text to `sendClientContent` — with no emptiness or
trimming check of its own.  Returns (thrown error or unit, the effects in
order, the state after the call). -/
def sendText (s : ClientState) (text : String) :
    Except String Unit × List ClientEffect × ClientState :=
  match s.session with
  | none => (Except.error "Not connected to Gemini", [], s)
  | some _ =>
      (Except.ok (),
       [ClientEffect.emit ⟨"user", text⟩,
        ClientEffect.send ⟨[⟨"user", [text]⟩], true⟩],
       s)

/-- Connection status as held by the `VoiceChat` component. -/
inductive UiStatus where
  | disconnected
  | connecting
  | connected
  | error
deriving Repr, DecidableEq

/-- A whitespace character as removed by JavaScript `String.prototype.trim`
(restricted to the ASCII whitespace characters). -/
def isJsSpace (c : Char) : Bool :=
  c == ' ' || c == '\t' || c == '\n' || c == '\r' || c == '\x0b' || c == '\x0c'

/-- Model of JavaScript `s.trim()`: strip leading and trailing whitespace. -/
def jsTrim (s : String) : String :=
  ⟨((s.toList.dropWhile isJsSpace).reverse.dropWhile isJsSpace).reverse⟩

/-- Shallow embedding of the UI's `sendMessage` (VoiceChat.tsx lines
155–165): it returns immediately — calling nothing and emitting nothing —
unless the trimmed input is non-empty, a client exists, and the status is
`connected`; otherwise it calls `sendText` with the trimmed input.  Returns
the effects performed. -/
def sendMessage (inputText : String) (clientPresent : Bool) (status : UiStatus)
    (s : ClientState) : List ClientEffect :=
  if jsTrim inputText = "" || !clientPresent || status ≠ UiStatus.connected then []
  else (sendText s (jsTrim inputText)).2.1

/-! ### Credential provider (`getApiConfig`) and `connect`'s failure path -/

/-- Shallow embedding of the server function `getApiConfig`: reads
`process.env.GEMINI_API_KEY` (modelled as an optional string) and throws
when it is absent or empty (JavaScript truthiness). -/
def getApiConfig (envKey : Option String) : Except String String :=
  match envKey with
  | none => Except.error "GEMINI_API_KEY environment variable is not set"
  | some k =>
      if k = "" then Except.error "GEMINI_API_KEY environment variable is not set"
      else Except.ok k

/-- Outcome of the UI's `connect` (VoiceChat.tsx lines 89–135) as far as the
credential-resolution step: `status` and `connectionError` after the call,
and whether the transport open primitive (`client.connect`, hence a network
attempt) was ever reached. -/
structure ConnectOutcome where
  status : UiStatus
  connectionError : Option ConnectionError
  networkAttempted : Bool
deriving Repr, DecidableEq

/-- Shallow embedding of the UI's `connect` up to the transport call: it
sets status to `connecting`, awaits `getApiConfig`, and if that throws, the
catch block classifies the thrown message through `parseError`, records the
result and sets status to `error` — the `GeminiLiveClient` is never
constructed and its `connect` (the network attempt) never called.  When the
credential resolves, the flow proceeds to the transport (modelled only as
`networkAttempted := true`; the transport outcome is outside this model). -/
def vcConnect (envKey : Option String) : ConnectOutcome :=
  match getApiConfig envKey with
  | Except.error e => ⟨UiStatus.error, some (parseError e), false⟩
  | Except.ok _ => ⟨UiStatus.connecting, none, true⟩

/-! ### `disconnect` (gemini.ts lines 232–256) -/

/-- The mutable fields of `GeminiLiveClient` touched by `disconnect`.  For
`session` and `audioContext`, `some b` means the resource is held and `b`
records whether its `close()` call would throw (the `try`/`catch` in
`disconnect` swallows either way). -/
structure GFullState where
  session : Option Bool
  audioContext : Option Bool
  audioQueue : List (List Nat)
  isPlaying : Bool
deriving Repr, DecidableEq

/-- Model of a `close()` call on a held resource that may throw. -/
def closeCall (throws : Bool) : Except String Unit :=
  if throws then Except.error "close failed" else Except.ok ()

/-- Shallow embedding of `GeminiLiveClient.disconnect`: closes the session
if any (exceptions caught and only logged), nulls it; same for the audio
context; clears the audio queue; resets `isPlaying`; reports
`'disconnected'`.  Total — the `try`/`catch` blocks mean no exception
escapes.  Returns the state after the call and the statuses reported. -/
def disconnect (s : GFullState) : GFullState × List String :=
  let s1 :=
    match s.session with
    | some t =>
        match closeCall t with
        | Except.ok _ => { s with session := none }
        | Except.error _ => { s with session := none }
    | none => s
  let s2 :=
    match s1.audioContext with
    | some t =>
        match closeCall t with
        | Except.ok _ => { s1 with audioContext := none }
        | Except.error _ => { s1 with audioContext := none }
    | none => s1
  ({ s2 with audioQueue := [], isPlaying := false }, ["disconnected"])

example : sendText ⟨none, [], false⟩ "hi" =
    (Except.error "Not connected to Gemini", [], ⟨none, [], false⟩) := rfl
example : sendMessage "   " true UiStatus.connected ⟨some (), [], false⟩ = [] := by decide
example : (vcConnect none).connectionError =
    some ⟨"API Key Not Configured",
      "The Gemini API key is not set up. Please contact the administrator.", false⟩ := by
  decide
example : disconnect ⟨some true, some false, [[1]], true⟩ =
    (⟨none, none, [], false⟩, ["disconnected"]) := by decide

/-! ### Base64 codec (`btoa`/`atob`; `arrayBufferToBase64`,
`base64ToArrayBuffer`) -/

/-- The base64 alphabet, index 0–63. -/
def b64Alphabet : List Char :=
  "ABCDEFGHIJKLMNOPQRSTUVWXYZabcdefghijklmnopqrstuvwxyz0123456789+/".toList

/-- The character standing for a sextet value. -/
def b64Char (n : Nat) : Char := b64Alphabet.getD n '?'

/-- The sextet value of a base64 character, `none` for a character outside
the alphabet. -/
def b64Index (c : Char) : Option Nat := b64Alphabet.findIdx? (· == c)

/-- The sextet stream of base64 encoding: bytes taken three at a time, a
final group of one byte yielding two sextets and of two bytes three. -/
def b64Sextets : List Nat → List Nat
  | [] => []
  | [b0] => [b0 / 4, b0 % 4 * 16]
  | [b0, b1] => [b0 / 4, b0 % 4 * 16 + b1 / 16, b1 % 16 * 4]
  | b0 :: b1 :: b2 :: rest =>
      b0 / 4 :: (b0 % 4 * 16 + b1 / 16) :: (b1 % 16 * 4 + b2 / 64) :: b2 % 64 ::
        b64Sextets rest

/-- Number of `'='` padding characters for a payload of `n` bytes. -/
def b64PadLen (n : Nat) : Nat :=
  if n % 3 = 1 then 2 else if n % 3 = 2 then 1 else 0

/-- Model of the browser builtin `btoa` applied to a binary string (a list
of char codes, each < 256): RFC 4648 base64 with `'='` padding. -/
def jsBtoa (bytes : List Nat) : List Char :=
  (b64Sextets bytes).map b64Char ++ List.replicate (b64PadLen bytes.length) '='

/-- Strip the trailing `'='` padding of a base64 string. -/
def dropTrailingEq (cs : List Char) : List Char :=
  (cs.reverse.dropWhile (· == '=')).reverse

/-- Look every character up in the alphabet; `none` if any is not in it. -/
def b64Indices : List Char → Option (List Nat)
  | [] => some []
  | c :: cs =>
      match b64Index c, b64Indices cs with
      | some n, some ns => some (n :: ns)
      | _, _ => none

/-- Regroup a sextet stream into bytes, a final group of two sextets
yielding one byte and of three two; a lone trailing sextet is malformed. -/
def b64Bytes : List Nat → Option (List Nat)
  | [] => some []
  | [_] => none
  | [s0, s1] => some [s0 * 4 + s1 / 16]
  | [s0, s1, s2] => some [s0 * 4 + s1 / 16, s1 % 16 * 16 + s2 / 4]
  | s0 :: s1 :: s2 :: s3 :: rest =>
      (b64Bytes rest).map fun tail =>
        (s0 * 4 + s1 / 16) :: (s1 % 16 * 16 + s2 / 4) :: (s2 % 4 * 64 + s3) :: tail

/-- Model of the browser builtin `atob`: strip the `'='` padding, look every
character up in the alphabet and regroup the sextets into bytes; `none`
models the `InvalidCharacterError` the builtin throws on malformed input. -/
def jsAtob (cs : List Char) : Option (List Nat) :=
  (b64Indices (dropTrailingEq cs)).bind b64Bytes

/-- Shallow embedding of `arrayBufferToBase64` (the audio-capture path): it
builds the binary string of the buffer's bytes with `String.fromCharCode`
and passes it to `btoa`; char codes of a `Uint8Array` view are the bytes
themselves, so the composition is `btoa` on the byte list. -/
def arrayBufferToBase64 (buffer : List Nat) : List Char := jsBtoa buffer

/-- Shallow embedding of `GeminiLiveClient.base64ToArrayBuffer` (gemini.ts
lines 152–159): `atob`, then `charCodeAt` of every position into a fresh
`Uint8Array` — the byte list `atob` yields. -/
def base64ToArrayBuffer (base64 : List Char) : Option (List Nat) := jsAtob base64

example : arrayBufferToBase64 [77, 97, 110] = "TWFu".toList := by decide
example : arrayBufferToBase64 [77, 97] = "TWE=".toList := by decide
example : arrayBufferToBase64 [77] = "TQ==".toList := by decide
example : base64ToArrayBuffer "TQ==".toList = some [77] := by decide
example : base64ToArrayBuffer "TWE=".toList = some [77, 97] := by decide
example : base64ToArrayBuffer [] = some [] := by decide

/-! ### Audio playback pipeline (`queueAudio` / `playQueuedAudio`) -/

/-- State of the playback pipeline, with ghost fields for verification:
`audioQueue` and `isPlaying` are the fields of `GeminiLiveClient`; `hasCtx`
records whether `audioContext` is non-null; `played` is the sequence of
chunks played so far, `enqueued` every chunk ever enqueued (both in order),
and `drains` the number of drain loops currently running. -/
structure PipeState where
  hasCtx : Bool
  audioQueue : List (List Nat)
  isPlaying : Bool
  played : List (List Nat)
  enqueued : List (List Nat)
  drains : Nat
deriving Repr, DecidableEq

/-- The event-loop steps touching the pipeline.  `queueAudio` is the
synchronous enqueue (gemini.ts lines 161–163); `drainCall` is an invocation
of `playQueuedAudio` up to its guard (line 166) and, when the guard passes,
the `isPlaying := true` activation; `playStep` is one iteration of the drain
loop (shift the head chunk and play it to completion, lines 170–196), at
whose internal `await` other events interleave; `drainExit` is the loop
condition failing and the `isPlaying := false` reset (line 198). -/
inductive PipeAction where
  | queueAudio (chunk : List Nat)
  | drainCall
  | playStep
  | drainExit
deriving Repr, DecidableEq

/-- One event-loop step of the pipeline.  Steps whose enabling condition
does not hold in the code (a loop iteration with no active drain or an
empty queue, a loop exit while chunks remain) leave the state unchanged:
in the code they simply do not occur. -/
def pipeStep (s : PipeState) (a : PipeAction) : PipeState :=
  match a with
  | PipeAction.queueAudio c =>
      { s with audioQueue := s.audioQueue ++ [c], enqueued := s.enqueued ++ [c] }
  | PipeAction.drainCall =>
      if s.isPlaying || s.audioQueue.isEmpty || !s.hasCtx then s
      else { s with isPlaying := true, drains := s.drains + 1 }
  | PipeAction.playStep =>
      match s.isPlaying, s.audioQueue with
      | true, c :: rest => { s with audioQueue := rest, played := s.played ++ [c] }
      | _, _ => s
  | PipeAction.drainExit =>
      if s.isPlaying && s.audioQueue.isEmpty then
        { s with isPlaying := false, drains := s.drains - 1 }
      else s

/-- Run a sequence of event-loop steps. -/
def pipeRun (s : PipeState) : List PipeAction → PipeState
  | [] => s
  | a :: rest => pipeRun (pipeStep s a) rest

/-- The pipeline's initial state. -/
def pipeInit (hasCtx : Bool) : PipeState := ⟨hasCtx, [], false, [], [], 0⟩

/-- The pipeline invariant: every chunk ever enqueued is either already
played (in order) or still queued (in order), and exactly one drain loop
runs while `isPlaying` and none otherwise. -/
def PipeInv (s : PipeState) : Prop :=
  s.enqueued = s.played ++ s.audioQueue ∧
  s.drains = (if s.isPlaying then 1 else 0)

/-! ### Message demultiplexer (`handleMessage`, gemini.ts lines 103–150) -/

/-- Model of JavaScript `s.startsWith(p)`. -/
def jsStartsWith (s p : String) : Bool := listStartsWith s.toList p.toList

/-- The `inlineData` field of a protocol part. -/
structure InlineData where
  data : Option String
  mimeType : Option String
deriving Repr, DecidableEq

/-- One part of a `modelTurn`: optionally a text fragment and optionally an
inline-data fragment. -/
structure MsgPart where
  text : Option String
  inlineData : Option InlineData
deriving Repr, DecidableEq

/-- The `modelTurn` envelope. -/
structure ModelTurn where
  parts : Option (List MsgPart)
deriving Repr, DecidableEq

/-- The `serverContent` envelope. -/
structure ServerContent where
  interrupted : Option Bool
  turnComplete : Option Bool
  modelTurn : Option ModelTurn
deriving Repr, DecidableEq

/-- An inbound protocol frame (`LiveServerMessage`); `setupComplete` is
`true` when the frame carries the setup-complete marker. -/
structure LiveServerMessage where
  setupComplete : Bool
  serverContent : Option ServerContent
deriving Repr, DecidableEq

/-- An externally visible effect of `handleMessage`. -/
inductive DemuxEffect where
  | emit (m : ChatMsg)
  | enqueueChunk (bytes : List Nat)
deriving Repr, DecidableEq

/-- What one `handleMessage` call did: its effects in order, whether it
triggered the playback drain (`playQueuedAudio`), and whether it ran to
completion (`ok := false` models the exception `atob` throws on malformed
base64 propagating out, aborting the remaining parts). -/
structure DemuxOutcome where
  effects : List DemuxEffect
  drainTriggered : Bool
  ok : Bool
deriving Repr, DecidableEq

/-- The ChatMessages emitted for one part's text field: the code's
`if (part.text)` JavaScript-truthiness guard skips an absent and an empty
text alike. -/
def partTextEffects (p : MsgPart) : List DemuxEffect :=
  match p.text with
  | some t => if t ≠ "" then [DemuxEffect.emit ⟨"assistant", t⟩] else []
  | none => []

/-- The code's audio guard for one part:
`part.inlineData?.data && part.inlineData.mimeType?.startsWith('audio/')`
— a present non-empty `data` and a present MIME type beginning `audio/`. -/
def partAudioCond (p : MsgPart) : Bool :=
  match p.inlineData with
  | some d =>
      (match d.data with
       | some dat => dat != ""
       | none => false) &&
      (match d.mimeType with
       | some mt => jsStartsWith mt "audio/"
       | none => false)
  | none => false

/-- The `data` string of a part's inline data (`""` when absent). -/
def partDataStr (p : MsgPart) : String :=
  match p.inlineData with
  | some d =>
      match d.data with
      | some dat => dat
      | none => ""
  | none => ""

/-- The part loop of `handleMessage` (gemini.ts lines 129–147): per part,
first the text emit, then the audio decode-and-enqueue; a decode failure
(modelled by `base64ToArrayBuffer` returning `none`) is the builtin `atob`
throwing, which aborts the remaining parts.  Returns the effects in order
and whether the loop completed. -/
def processParts : List MsgPart → List DemuxEffect × Bool
  | [] => ([], true)
  | p :: ps =>
      let te := partTextEffects p
      if partAudioCond p then
        match base64ToArrayBuffer (partDataStr p).toList with
        | some bytes =>
            let r := processParts ps
            (te ++ DemuxEffect.enqueueChunk bytes :: r.1, r.2)
        | none => (te, false)
      else
        let r := processParts ps
        (te ++ r.1, r.2)

/-- Shallow embedding of `GeminiLiveClient.handleMessage` (gemini.ts lines
103–150): setup-complete frames are acknowledged and dropped; then, inside
`serverContent`, a truthy `interrupted` discards the frame, a truthy
`turnComplete` triggers the playback drain and returns, and otherwise the
`modelTurn.parts` are processed in order. -/
def handleMessage (m : LiveServerMessage) : DemuxOutcome :=
  if m.setupComplete then ⟨[], false, true⟩
  else
    match m.serverContent with
    | none => ⟨[], false, true⟩
    | some sc =>
        if sc.interrupted = some true then ⟨[], false, true⟩
        else if sc.turnComplete = some true then ⟨[], true, true⟩
        else
          match sc.modelTurn with
          | none => ⟨[], false, true⟩
          | some mt =>
              match mt.parts with
              | none => ⟨[], false, true⟩
              | some ps => ⟨(processParts ps).1, false, (processParts ps).2⟩

example :
    handleMessage ⟨true, some ⟨some true, some true, none⟩⟩ = ⟨[], false, true⟩ := rfl
example :
    handleMessage ⟨false, some ⟨none, some true,
      some ⟨some [⟨some "hi", none⟩]⟩⟩⟩ = ⟨[], true, true⟩ := rfl
example :
    handleMessage ⟨false, some ⟨none, none, some ⟨some [⟨some "hi", none⟩,
      ⟨none, some ⟨some "TQ==", some "audio/pcm"⟩⟩]⟩⟩⟩ =
    ⟨[DemuxEffect.emit ⟨"assistant", "hi"⟩, DemuxEffect.enqueueChunk [77]],
      false, true⟩ := by decide

/-- Per-part effects as claim C4 words them: one ChatMessage per text
fragment (any present text, the empty string included) and one decoded
chunk per inline-data fragment (any present data) whose MIME type begins
with `audio/`.  Used to exhibit where the code diverges from this. -/
def specPartEffects (p : MsgPart) : List DemuxEffect :=
  (match p.text with
   | some t => [DemuxEffect.emit ⟨"assistant", t⟩]
   | none => []) ++
  (match p.inlineData with
   | some d =>
       match d.data, d.mimeType with
       | some dat, some mt =>
           if jsStartsWith mt "audio/" then
             match base64ToArrayBuffer dat.toList with
             | some bytes => [DemuxEffect.enqueueChunk bytes]
             | none => []
           else []
       | _, _ => []
   | none => [])

/-- The demultiplexer as claim C4 words it (precedence chain as claimed,
part handling per `specPartEffects`). -/
def demuxSpecC4 (m : LiveServerMessage) : DemuxOutcome :=
  if m.setupComplete then ⟨[], false, true⟩
  else
    match m.serverContent with
    | none => ⟨[], false, true⟩
    | some sc =>
        if sc.interrupted = some true then ⟨[], false, true⟩
        else if sc.turnComplete = some true then ⟨[], true, true⟩
        else
          match sc.modelTurn with
          | none => ⟨[], false, true⟩
          | some mt =>
              match mt.parts with
              | none => ⟨[], false, true⟩
              | some ps => ⟨(ps.map specPartEffects).flatten, false, true⟩

/-- Per-part effects as the amended claim words them: one ChatMessage per
non-empty text fragment, one decoded chunk per inline-data fragment with
non-empty data whose MIME type begins with `audio/`. -/
def amendedPartEffects (p : MsgPart) : List DemuxEffect :=
  (match p.text with
   | some t => if t = "" then [] else [DemuxEffect.emit ⟨"assistant", t⟩]
   | none => []) ++
  (match p.inlineData with
   | some d =>
       match d.data, d.mimeType with
       | some dat, some mt =>
           if dat = "" then []
           else if jsStartsWith mt "audio/" then
             match base64ToArrayBuffer dat.toList with
             | some bytes => [DemuxEffect.enqueueChunk bytes]
             | none => []
           else []
       | _, _ => []
   | none => [])

/-- The demultiplexer as the amended claim words it. -/
def demuxAmended (m : LiveServerMessage) : DemuxOutcome :=
  if m.setupComplete then ⟨[], false, true⟩
  else
    match m.serverContent with
    | none => ⟨[], false, true⟩
    | some sc =>
        if sc.interrupted = some true then ⟨[], false, true⟩
        else if sc.turnComplete = some true then ⟨[], true, true⟩
        else
          match sc.modelTurn with
          | none => ⟨[], false, true⟩
          | some mt =>
              match mt.parts with
              | none => ⟨[], false, true⟩
              | some ps => ⟨(ps.map amendedPartEffects).flatten, false, true⟩

/-- Every audio part of the list carries base64 that decodes. -/
def partsDecodeOk (ps : List MsgPart) : Bool :=
  ps.all fun p =>
    !partAudioCond p || (base64ToArrayBuffer (partDataStr p).toList).isSome

/-- Every audio part of the frame carries base64 that decodes (a frame on
which the builtin `atob` would not throw). -/
def frameDecodesOk (m : LiveServerMessage) : Bool :=
  match m.serverContent with
  | some sc =>
      match sc.modelTurn with
      | some mt =>
          match mt.parts with
          | some ps => partsDecodeOk ps
          | none => true
      | none => true
  | none => true

/-! ## Theorems -/

/-- One event-loop step preserves the pipeline invariant. -/
theorem pipeStep_inv (s : PipeState) (a : PipeAction) (h : PipeInv s) :
    PipeInv (pipeStep s a) := by
  obtain ⟨h1, h2⟩ := h
  cases a with
  | queueAudio c =>
      exact ⟨by simp [pipeStep, h1], by simp [pipeStep, h2]⟩
  | drainCall =>
      simp only [pipeStep]
      split
      · exact ⟨h1, h2⟩
      · rename_i hcond
        simp only [Bool.or_eq_true, Bool.not_eq_true', not_or] at hcond
        refine ⟨h1, ?_⟩
        simp only [hcond.1] at h2
        simp [h2]
  | playStep =>
      simp only [pipeStep]
      split
      · rename_i c rest hp hq
        constructor
        · simp [h1, hq]
        · simpa [hp] using h2
      · exact ⟨h1, h2⟩
  | drainExit =>
      simp only [pipeStep]
      split
      · rename_i hcond
        simp only [Bool.and_eq_true] at hcond
        refine ⟨h1, ?_⟩
        simp only [hcond.1] at h2
        simp [h2]
      · exact ⟨h1, h2⟩

/-- Any run from an invariant state ends in an invariant state. -/
theorem pipeRun_inv (acts : List PipeAction) (s : PipeState) (h : PipeInv s) :
    PipeInv (pipeRun s acts) := by
  induction acts generalizing s with
  | nil => exact h
  | cons a rest ih => exact ih (pipeStep s a) (pipeStep_inv s a h)

/-- C3: over every event-loop interleaving from the initial state, the
chunks played followed by the chunks still queued are exactly the chunks
enqueued, in enqueue order (FIFO playback), and at most one drain loop is
active at any instant; moreover a `playQueuedAudio` call while `isPlaying`
is a no-op, and a drain loop cannot exit while a chunk (in particular one
appended during the drain) remains queued — that chunk is consumed by the
same loop. -/
theorem audio_pipeline_fifo_single_drain :
    (∀ (hasCtx : Bool) (acts : List PipeAction),
        (pipeRun (pipeInit hasCtx) acts).enqueued
            = (pipeRun (pipeInit hasCtx) acts).played
                ++ (pipeRun (pipeInit hasCtx) acts).audioQueue
          ∧ (pipeRun (pipeInit hasCtx) acts).drains ≤ 1)
    ∧ (∀ s : PipeState, s.isPlaying = true → pipeStep s PipeAction.drainCall = s)
    ∧ (∀ s : PipeState, s.audioQueue ≠ [] → pipeStep s PipeAction.drainExit = s) := by
  refine ⟨?_, ?_, ?_⟩
  · intro hasCtx acts
    obtain ⟨h1, h2⟩ := pipeRun_inv acts (pipeInit hasCtx) ⟨rfl, rfl⟩
    refine ⟨h1, ?_⟩
    rw [h2]
    split <;> omega
  · intro s hp
    simp [pipeStep, hp]
  · intro s hq
    have hempty : s.audioQueue.isEmpty = false := by
      simpa [List.isEmpty_iff] using hq
    simp [pipeStep, hempty]

/-- C1 counterexample: a raw error string containing `"429"` need not
classify as "Rate Limited" — an earlier rule can match other substrings of
it first. -/
theorem parseError_429_not_always_rate_limited :
    jsIncludes "connection reset after HTTP 429" "429" = true ∧
    parseError "connection reset after HTTP 429" =
      ⟨"Connection Failed",
       "Unable to connect to the AI service. Check your internet connection and try again.",
       true⟩ ∧
    (parseError "connection reset after HTTP 429").message ≠ "Rate Limited" :=
  ⟨by decide, by decide, by decide⟩

/-- C1 (amended): every raw error string containing `"429"` that matches
none of the three earlier rules (API-key, connection, authentication
keywords) classifies as "Rate Limited" with `recoverable = true`. -/
theorem parseError_429_rate_limited (msg : String)
    (h429 : jsIncludes msg "429" = true)
    (h1 : (jsIncludes msg "API_KEY" || jsIncludes msg "apiKey" ||
            jsIncludes msg "environment variable") = false)
    (h2 : (jsIncludes msg "WebSocket" || jsIncludes msg "connection" ||
            jsIncludes msg "network") = false)
    (h3 : (jsIncludes msg "401" || jsIncludes msg "403" ||
            jsIncludes msg "unauthorized" || jsIncludes msg "forbidden") = false) :
    parseError msg =
      ⟨"Rate Limited", "Too many requests. Please wait a moment and try again.", true⟩ := by
  simp [parseError, h1, h2, h3, h429]

theorem parseError_429_rate_limited_witness :
    parseError "HTTP 429" =
      ⟨"Rate Limited", "Too many requests. Please wait a moment and try again.", true⟩ :=
  parseError_429_rate_limited "HTTP 429" (by decide) (by decide) (by decide) (by decide)

/-- C2 counterexample: `parseError` matches case-sensitively, not
case-insensitively as claimed — on `"NETWORK"` the case-insensitive
classifier of the spec's words yields "Connection Failed" while the code
falls through to the default "Connection Error". -/
theorem parseError_not_case_insensitive :
    jsIncludesCI "NETWORK" "network" = true ∧
    jsIncludes "NETWORK" "network" = false ∧
    parseErrorSpecCI "NETWORK" =
      ⟨"Connection Failed",
       "Unable to connect to the AI service. Check your internet connection and try again.",
       true⟩ ∧
    parseError "NETWORK" = ⟨"Connection Error", "NETWORK", true⟩ ∧
    parseError "NETWORK" ≠ parseErrorSpecCI "NETWORK" :=
  ⟨by decide, by decide, by decide, by decide, by decide⟩

/-- C2 (amended): `parseError` is a pure function evaluating its six rules
in the listed priority order with first match winning, matching substrings
case-sensitively; in particular a message containing both `"network"` and
`"429"` (and nothing the API-key rule matches) resolves to the first-listed
matching rule, "Connection Failed" with `recoverable = true`, not "Rate
Limited". -/
theorem parseError_first_match_priority (msg : String) :
    ((jsIncludes msg "API_KEY" || jsIncludes msg "apiKey" ||
        jsIncludes msg "environment variable") = true →
      parseError msg =
        ⟨"API Key Not Configured",
         "The Gemini API key is not set up. Please contact the administrator.", false⟩) ∧
    ((jsIncludes msg "API_KEY" || jsIncludes msg "apiKey" ||
        jsIncludes msg "environment variable") = false →
      (jsIncludes msg "WebSocket" || jsIncludes msg "connection" ||
        jsIncludes msg "network") = true →
      parseError msg =
        ⟨"Connection Failed",
         "Unable to connect to the AI service. Check your internet connection and try again.",
         true⟩) ∧
    ((jsIncludes msg "API_KEY" || jsIncludes msg "apiKey" ||
        jsIncludes msg "environment variable") = false →
      (jsIncludes msg "WebSocket" || jsIncludes msg "connection" ||
        jsIncludes msg "network") = false →
      (jsIncludes msg "401" || jsIncludes msg "403" ||
        jsIncludes msg "unauthorized" || jsIncludes msg "forbidden") = true →
      parseError msg =
        ⟨"Authentication Error",
         "The API key may be invalid or expired. Please contact the administrator.", false⟩) ∧
    ((jsIncludes msg "API_KEY" || jsIncludes msg "apiKey" ||
        jsIncludes msg "environment variable") = false →
      (jsIncludes msg "WebSocket" || jsIncludes msg "connection" ||
        jsIncludes msg "network") = false →
      (jsIncludes msg "401" || jsIncludes msg "403" ||
        jsIncludes msg "unauthorized" || jsIncludes msg "forbidden") = false →
      (jsIncludes msg "429" || jsIncludes msg "rate" ||
        jsIncludes msg "quota") = true →
      parseError msg =
        ⟨"Rate Limited", "Too many requests. Please wait a moment and try again.", true⟩) ∧
    ((jsIncludes msg "API_KEY" || jsIncludes msg "apiKey" ||
        jsIncludes msg "environment variable") = false →
      (jsIncludes msg "WebSocket" || jsIncludes msg "connection" ||
        jsIncludes msg "network") = false →
      (jsIncludes msg "401" || jsIncludes msg "403" ||
        jsIncludes msg "unauthorized" || jsIncludes msg "forbidden") = false →
      (jsIncludes msg "429" || jsIncludes msg "rate" ||
        jsIncludes msg "quota") = false →
      (jsIncludes msg "model" || jsIncludes msg "not found" ||
        jsIncludes msg "unavailable") = true →
      parseError msg =
        ⟨"Service Unavailable",
         "The AI model is currently unavailable. Please try again later.", true⟩) ∧
    ((jsIncludes msg "API_KEY" || jsIncludes msg "apiKey" ||
        jsIncludes msg "environment variable") = false →
      (jsIncludes msg "WebSocket" || jsIncludes msg "connection" ||
        jsIncludes msg "network") = false →
      (jsIncludes msg "401" || jsIncludes msg "403" ||
        jsIncludes msg "unauthorized" || jsIncludes msg "forbidden") = false →
      (jsIncludes msg "429" || jsIncludes msg "rate" ||
        jsIncludes msg "quota") = false →
      (jsIncludes msg "model" || jsIncludes msg "not found" ||
        jsIncludes msg "unavailable") = false →
      parseError msg =
        ⟨"Connection Error",
         if msg = "" then "An unexpected error occurred. Please try again." else msg,
         true⟩) ∧
    (jsIncludes msg "network" = true → jsIncludes msg "429" = true →
      (jsIncludes msg "API_KEY" || jsIncludes msg "apiKey" ||
        jsIncludes msg "environment variable") = false →
      parseError msg =
        ⟨"Connection Failed",
         "Unable to connect to the AI service. Check your internet connection and try again.",
         true⟩) := by
  refine ⟨?_, ?_, ?_, ?_, ?_, ?_, ?_⟩
  · intro h1
    simp [parseError, h1]
  · intro h1 h2
    simp [parseError, h1, h2]
  · intro h1 h2 h3
    simp [parseError, h1, h2, h3]
  · intro h1 h2 h3 h4
    simp [parseError, h1, h2, h3, h4]
  · intro h1 h2 h3 h4 h5
    simp [parseError, h1, h2, h3, h4, h5]
  · intro h1 h2 h3 h4 h5
    simp [parseError, h1, h2, h3, h4, h5]
  · intro hn h429 h1
    have h2 : (jsIncludes msg "WebSocket" || jsIncludes msg "connection" ||
        jsIncludes msg "network") = true := by simp [hn]
    simp [parseError, h1, h2]

/-- Every message the close handler composes is non-empty. -/
theorem oncloseMessage_ne_empty (e : JsCloseEvent) : oncloseMessage e ≠ "" := by
  unfold oncloseMessage
  repeat' split
  all_goals intro hEq
  all_goals
    first
      | exact absurd hEq (by decide)
      | (have hl := congrArg String.length hEq;
         rw [String.length_append] at hl;
         have h19 : ("Connection closed: " : String).length = 19 := rfl;
         have h0 : ("" : String).length = 0 := rfl;
         rw [h19, h0] at hl;
         omega)

/-- C5: the close-code classification of the `onclose` callback — code 1000
never invokes `onError`; any other code (in particular with
`wasClean = false`) invokes it with a non-empty message; 1006, 1008 and
1011 map to their respective hints; any other non-1000 code passes a
non-empty reason through and otherwise falls back to the generic
"Connection closed"; and `onStatusChange('disconnected')` fires in every
case. -/
theorem onclose_close_code_mapping (e : JsCloseEvent) :
    (onclose e).2 = "disconnected" ∧
    (e.code = 1000 → (onclose e).1 = none) ∧
    (e.code ≠ 1000 → e.wasClean = false →
      ∃ m, (onclose e).1 = some m ∧ m ≠ "") ∧
    (e.code = 1006 → (onclose e).1 =
      some "Connection closed abnormally - possible network issue or invalid API key") ∧
    (e.code = 1008 → (onclose e).1 =
      some "Policy violation - check your API key permissions") ∧
    (e.code = 1011 → (onclose e).1 =
      some "Server error - the Gemini service encountered an issue") ∧
    (e.code ≠ 1000 → e.code ≠ 1006 → e.code ≠ 1008 → e.code ≠ 1011 →
      e.reason ≠ "" →
      (onclose e).1 = some ("Connection closed: " ++ e.reason)) ∧
    (e.code ≠ 1000 → e.code ≠ 1006 → e.code ≠ 1008 → e.code ≠ 1011 →
      e.reason = "" →
      (onclose e).1 = some "Connection closed") := by
  refine ⟨rfl, ?_, ?_, ?_, ?_, ?_, ?_, ?_⟩
  · intro h
    simp [onclose, h]
  · intro h _
    exact ⟨oncloseMessage e, by simp [onclose, h], oncloseMessage_ne_empty e⟩
  · intro h
    have h1000 : e.code ≠ 1000 := by omega
    simp [onclose, oncloseMessage, h, h1000]
  · intro h
    have h1000 : e.code ≠ 1000 := by omega
    simp [onclose, oncloseMessage, h, h1000]
  · intro h
    have h1000 : e.code ≠ 1000 := by omega
    simp [onclose, oncloseMessage, h, h1000]
  · intro h0 h6 h8 h11 hr
    simp [onclose, oncloseMessage, h0, h6, h8, h11, hr]
  · intro h0 h6 h8 h11 hr
    simp [onclose, oncloseMessage, h0, h6, h8, h11, hr]

/-- C6 counterexample: `GeminiLiveClient.sendText` itself performs no
emptiness check — called with a whitespace-only string while a session is
open, it emits the optimistic user ChatMessage and makes the outbound send,
so it is not a no-op. -/
theorem sendText_whitespace_not_noop :
    sendText ⟨some (), [], false⟩ "   " =
      (Except.ok (),
       [ClientEffect.emit ⟨"user", "   "⟩,
        ClientEffect.send ⟨[⟨"user", ["   "]⟩], true⟩],
       ⟨some (), [], false⟩) ∧
    (sendText ⟨some (), [], false⟩ "   ").2.1 ≠ [] :=
  ⟨rfl, by decide⟩

/-- C6 (amended): the emptiness precondition lives in the caller — the UI's
`sendMessage` with input whose trim is empty is a no-op: `sendText` is never
invoked, no ChatMessage is emitted and no outbound send is made, whatever
the client presence, connection status and client state. -/
theorem sendMessage_blank_input_noop (inputText : String) (clientPresent : Bool)
    (status : UiStatus) (s : ClientState) (h : jsTrim inputText = "") :
    sendMessage inputText clientPresent status s = [] := by
  simp [sendMessage, h]

theorem sendMessage_blank_input_noop_witness :
    sendMessage "   " true UiStatus.connected ⟨some (), [], false⟩ = [] :=
  sendMessage_blank_input_noop "   " true UiStatus.connected ⟨some (), [], false⟩ (by decide)

/-- C7: when no credential is resolvable (the `GEMINI_API_KEY` variable is
absent or empty, so `getApiConfig` throws), the UI's `connect` ends in
status `error` with the non-recoverable "API Key Not Configured"
classification, and the transport open primitive is never reached — no
network attempt is made. -/
theorem connect_missing_credential (envKey : Option String)
    (h : envKey = none ∨ envKey = some "") :
    vcConnect envKey =
      ⟨UiStatus.error,
       some ⟨"API Key Not Configured",
         "The Gemini API key is not set up. Please contact the administrator.",
         false⟩,
       false⟩ := by
  rcases h with h | h <;> subst h <;> decide

theorem connect_missing_credential_witness :
    vcConnect none =
      ⟨UiStatus.error,
       some ⟨"API Key Not Configured",
         "The Gemini API key is not set up. Please contact the administrator.",
         false⟩,
       false⟩ :=
  connect_missing_credential none (Or.inl rfl)

/-- C8: `disconnect` never throws (the `close()` exceptions are caught), is
callable from any state, leaves the session and audio context released, the
audio queue empty and `isPlaying` false, reports exactly
`'disconnected'`, and is idempotent: a second call has the same effect as
the first. -/
theorem disconnect_from_any_state_idempotent (s : GFullState) :
    (disconnect s).1 = ⟨none, none, [], false⟩ ∧
    (disconnect s).2 = ["disconnected"] ∧
    disconnect (disconnect s).1 = disconnect s := by
  obtain ⟨sess, ctx, q, p⟩ := s
  rcases sess with _ | t1 <;> rcases ctx with _ | t2 <;>
    first
      | exact ⟨rfl, rfl, rfl⟩
      | (cases t1 <;> cases t2 <;> exact ⟨rfl, rfl, rfl⟩)
      | (cases t1 <;> exact ⟨rfl, rfl, rfl⟩)
      | (cases t2 <;> exact ⟨rfl, rfl, rfl⟩)

/-- C10: `sendText` while no session is open throws
`"Not connected to Gemini"` before any side effect: no ChatMessage is
emitted, no outbound send is attempted, and the client state is returned
unchanged. -/
theorem sendText_no_session_throws (s : ClientState) (txt : String)
    (h : s.session = none) :
    sendText s txt = (Except.error "Not connected to Gemini", [], s) := by
  obtain ⟨sess, q, p⟩ := s
  cases sess with
  | none => rfl
  | some u => exact absurd h (by simp)

theorem sendText_no_session_throws_witness :
    sendText ⟨none, [], false⟩ "hello" =
      (Except.error "Not connected to Gemini", [], ⟨none, [], false⟩) :=
  sendText_no_session_throws ⟨none, [], false⟩ "hello" rfl

/-- The amended per-part description agrees pointwise with the code's text
guard plus audio guard. -/
theorem amendedPartEffects_eq (p : MsgPart) :
    amendedPartEffects p =
      partTextEffects p ++
        (if partAudioCond p then
           match base64ToArrayBuffer (partDataStr p).toList with
           | some bytes => [DemuxEffect.enqueueChunk bytes]
           | none => []
         else []) := by
  obtain ⟨t, idata⟩ := p
  have htext : ∀ h2 h2' : List DemuxEffect, h2 = h2' →
      amendedPartEffects ⟨t, idata⟩ =
        (match t with
         | some t' => if t' = "" then [] else [DemuxEffect.emit ⟨"assistant", t'⟩]
         | none => []) ++ h2 →
      partTextEffects ⟨t, idata⟩ = (match t with
         | some t' => if t' = "" then [] else [DemuxEffect.emit ⟨"assistant", t'⟩]
         | none => []) →
      amendedPartEffects ⟨t, idata⟩ = partTextEffects ⟨t, idata⟩ ++ h2' := by
    intro h2 h2' hee hdef htx
    rw [hdef, htx, hee]
  refine htext _ _ ?_ rfl ?_
  · rcases idata with _ | ⟨dat, mt⟩
    · rfl
    · rcases dat with _ | dat
      · rfl
      · rcases mt with _ | mt
        · simp [partAudioCond]
        · by_cases hdat : dat = ""
          · simp [partAudioCond, hdat]
          · by_cases hmt : jsStartsWith mt "audio/" = true
            · simp [partAudioCond, partDataStr, hdat, hmt]
            · simp [partAudioCond, partDataStr, hdat, hmt]
  · cases t with
    | none => rfl
    | some t' =>
        by_cases h : t' = "" <;> simp [partTextEffects, h]

/-- On a part list whose audio data all decodes, the part loop of
`handleMessage` computes exactly the amended per-part effects, concatenated
in part order, and completes. -/
theorem processParts_decode_ok (ps : List MsgPart) (h : partsDecodeOk ps = true) :
    processParts ps = ((ps.map amendedPartEffects).flatten, true) := by
  induction ps with
  | nil => rfl
  | cons p rest ih =>
      simp only [partsDecodeOk, List.all_cons, Bool.and_eq_true] at h
      obtain ⟨hp, hrest⟩ := h
      have ihr := ih hrest
      by_cases hc : partAudioCond p = true
      · have hsome : (base64ToArrayBuffer (partDataStr p).toList).isSome = true := by
          simpa [hc] using hp
        obtain ⟨bytes, hbytes⟩ := Option.isSome_iff_exists.mp hsome
        rw [show (partDataStr p).toList = (partDataStr p).data from rfl] at hbytes
        simp [processParts, hc, hbytes, ihr, amendedPartEffects_eq]
      · simp only [Bool.not_eq_true] at hc
        simp [processParts, hc, ihr, amendedPartEffects_eq]

/-- C4 counterexample: the code's JavaScript-truthiness guards drop an
empty text fragment and an empty-data audio fragment, where the claim's
reading (one ChatMessage per text fragment, one enqueue per audio
inline-data fragment) emits both. -/
theorem handleMessage_truthiness_cex :
    handleMessage ⟨false, some ⟨none, none, some ⟨some
        [⟨some "", none⟩, ⟨none, some ⟨some "", some "audio/pcm"⟩⟩]⟩⟩⟩ =
      ⟨[], false, true⟩ ∧
    demuxSpecC4 ⟨false, some ⟨none, none, some ⟨some
        [⟨some "", none⟩, ⟨none, some ⟨some "", some "audio/pcm"⟩⟩]⟩⟩⟩ =
      ⟨[DemuxEffect.emit ⟨"assistant", ""⟩, DemuxEffect.enqueueChunk []],
       false, true⟩ ∧
    handleMessage ⟨false, some ⟨none, none, some ⟨some
        [⟨some "", none⟩, ⟨none, some ⟨some "", some "audio/pcm"⟩⟩]⟩⟩⟩ ≠
      demuxSpecC4 ⟨false, some ⟨none, none, some ⟨some
        [⟨some "", none⟩, ⟨none, some ⟨some "", some "audio/pcm"⟩⟩]⟩⟩⟩ :=
  ⟨by decide, by decide, by decide⟩

/-- C4 (amended): on every frame whose audio payloads decode,
`handleMessage` follows exactly the claimed precedence — setup-complete
first, then `interrupted` discarding the frame, then `turnComplete`
triggering the drain without touching `modelTurn`, then the parts in
sequence order — emitting one assistant ChatMessage per non-empty text
fragment and decoding and enqueuing each inline-data fragment with
non-empty data whose MIME type begins with `audio/`, ignoring everything
else. -/
theorem handleMessage_precedence (m : LiveServerMessage)
    (h : frameDecodesOk m = true) :
    handleMessage m = demuxAmended m := by
  obtain ⟨setup, sc⟩ := m
  cases setup with
  | true => rfl
  | false =>
      cases sc with
      | none => rfl
      | some sc' =>
          obtain ⟨intr, tc, mturn⟩ := sc'
          by_cases hintr : intr = some true
          · simp [handleMessage, demuxAmended, hintr]
          · by_cases htc : tc = some true
            · simp [handleMessage, demuxAmended, hintr, htc]
            · rcases mturn with _ | ⟨ps⟩
              · simp [handleMessage, demuxAmended, hintr, htc]
              · rcases ps with _ | ps'
                · simp [handleMessage, demuxAmended, hintr, htc]
                · have hps : partsDecodeOk ps' = true := by
                    simpa [frameDecodesOk] using h
                  have hproc := processParts_decode_ok ps' hps
                  simp [handleMessage, demuxAmended, hintr, htc, hproc]

theorem handleMessage_precedence_witness :
    handleMessage ⟨false, some ⟨none, none, some ⟨some [⟨some "hi", none⟩,
        ⟨none, some ⟨some "TQ==", some "audio/pcm"⟩⟩]⟩⟩⟩ =
      demuxAmended ⟨false, some ⟨none, none, some ⟨some [⟨some "hi", none⟩,
        ⟨none, some ⟨some "TQ==", some "audio/pcm"⟩⟩]⟩⟩⟩ :=
  handleMessage_precedence _ (by decide)

/-- Decoding a base64 character of the alphabet recovers its sextet. -/
theorem b64Index_b64Char : ∀ n : Fin 64, b64Index (b64Char n.val) = some n.val := by
  decide

/-- No alphabet character is the padding character. -/
theorem b64Char_ne_pad : ∀ n : Fin 64, (b64Char n.val == '=') = false := by
  decide

/-- Sextets of bytes are sextets. -/
theorem b64Sextets_lt :
    ∀ (bytes : List Nat), (∀ b ∈ bytes, b < 256) → ∀ x ∈ b64Sextets bytes, x < 64
  | [], _, x, hx => by simp [b64Sextets] at hx
  | [b0], h, x, hx => by
      have hb0 : b0 < 256 := h b0 (by simp)
      simp only [b64Sextets, List.mem_cons, List.not_mem_nil, or_false] at hx
      rcases hx with rfl | rfl <;> omega
  | [b0, b1], h, x, hx => by
      have hb0 : b0 < 256 := h b0 (by simp)
      have hb1 : b1 < 256 := h b1 (by simp)
      simp only [b64Sextets, List.mem_cons, List.not_mem_nil, or_false] at hx
      rcases hx with rfl | rfl | rfl <;> omega
  | b0 :: b1 :: b2 :: rest, h, x, hx => by
      have hb0 : b0 < 256 := h b0 (by simp)
      have hb1 : b1 < 256 := h b1 (by simp)
      have hb2 : b2 < 256 := h b2 (by simp)
      simp only [b64Sextets, List.mem_cons] at hx
      rcases hx with rfl | rfl | rfl | rfl | hx
      · omega
      · omega
      · omega
      · omega
      · exact b64Sextets_lt rest (fun b hb => h b (by simp [hb])) x hx

/-- Regrouping the sextets of a byte list recovers the bytes. -/
theorem b64Bytes_b64Sextets :
    ∀ (bytes : List Nat), (∀ b ∈ bytes, b < 256) →
      b64Bytes (b64Sextets bytes) = some bytes
  | [], _ => rfl
  | [b0], h => by
      have hb0 : b0 < 256 := h b0 (by simp)
      simp only [b64Sextets, b64Bytes]
      have e : b0 / 4 * 4 + b0 % 4 * 16 / 16 = b0 := by omega
      rw [e]
  | [b0, b1], h => by
      have hb0 : b0 < 256 := h b0 (by simp)
      have hb1 : b1 < 256 := h b1 (by simp)
      simp only [b64Sextets, b64Bytes]
      have e0 : b0 / 4 * 4 + (b0 % 4 * 16 + b1 / 16) / 16 = b0 := by omega
      have e1 : (b0 % 4 * 16 + b1 / 16) % 16 * 16 + b1 % 16 * 4 / 4 = b1 := by omega
      rw [e0, e1]
  | b0 :: b1 :: b2 :: rest, h => by
      have hb0 : b0 < 256 := h b0 (by simp)
      have hb1 : b1 < 256 := h b1 (by simp)
      have hb2 : b2 < 256 := h b2 (by simp)
      have ih := b64Bytes_b64Sextets rest (fun b hb => h b (by simp [hb]))
      simp only [b64Sextets, b64Bytes, ih, Option.map_some]
      have e0 : b0 / 4 * 4 + (b0 % 4 * 16 + b1 / 16) / 16 = b0 := by omega
      have e1 : (b0 % 4 * 16 + b1 / 16) % 16 * 16 + (b1 % 16 * 4 + b2 / 64) / 4 = b1 := by
        omega
      have e2 : (b1 % 16 * 4 + b2 / 64) % 4 * 64 + b2 % 64 = b2 := by omega
      rw [e0, e1, e2]
      rfl

/-- Stripping leading padding characters. -/
theorem dropWhile_pad_replicate (k : Nat) (l : List Char) :
    List.dropWhile (· == '=') (List.replicate k '=' ++ l) =
      List.dropWhile (· == '=') l := by
  induction k with
  | zero => simp
  | succ n ih => simp [List.replicate_succ, ih]

/-- Dropping while a test holds does nothing on a list whose head already fails it —
in particular on one with no padding character at all. -/
theorem dropWhile_no_pad (l : List Char) (h : ∀ c ∈ l, (c == '=') = false) :
    List.dropWhile (· == '=') l = l := by
  cases l with
  | nil => rfl
  | cons c cs => simp [List.dropWhile_cons, h c (by simp)]

/-- Decoding the alphabet characters of a sextet list recovers it. -/
theorem b64Indices_map_b64Char (l : List Nat) (h : ∀ x ∈ l, x < 64) :
    b64Indices (l.map b64Char) = some l := by
  induction l with
  | nil => rfl
  | cons x xs ih =>
      have hx : x < 64 := h x (by simp)
      have hxs := ih fun y hy => h y (by simp [hy])
      simp only [List.map_cons, b64Indices]
      rw [show b64Index (b64Char x) = some x from b64Index_b64Char ⟨x, hx⟩, hxs]

/-- C9: for every byte buffer, encoding with `arrayBufferToBase64` and
decoding with `base64ToArrayBuffer` yields the buffer back, byte for
byte. -/
theorem base64_roundtrip (buffer : List Nat) (h : ∀ b ∈ buffer, b < 256) :
    base64ToArrayBuffer (arrayBufferToBase64 buffer) = some buffer := by
  have hsex := b64Sextets_lt buffer h
  have hdrop : dropTrailingEq (jsBtoa buffer) = (b64Sextets buffer).map b64Char := by
    unfold dropTrailingEq jsBtoa
    rw [List.reverse_append, List.reverse_replicate, dropWhile_pad_replicate,
      dropWhile_no_pad]
    · exact List.reverse_reverse _
    · intro c hc
      rw [List.mem_reverse] at hc
      obtain ⟨x, hx, rfl⟩ := List.mem_map.mp hc
      exact b64Char_ne_pad ⟨x, hsex x hx⟩
  have hidx := b64Indices_map_b64Char (b64Sextets buffer) hsex
  show jsAtob (jsBtoa buffer) = some buffer
  unfold jsAtob
  rw [hdrop, hidx]
  exact b64Bytes_b64Sextets buffer h

theorem base64_roundtrip_witness :
    base64ToArrayBuffer (arrayBufferToBase64 []) = some [] ∧
    base64ToArrayBuffer (arrayBufferToBase64 [200]) = some [200] ∧
    base64ToArrayBuffer (arrayBufferToBase64 (List.replicate 1024 65)) =
      some (List.replicate 1024 65) ∧
    base64ToArrayBuffer (arrayBufferToBase64 (List.replicate 65536 255)) =
      some (List.replicate 65536 255) :=
  ⟨base64_roundtrip [] (by intro b hb; simp at hb),
   base64_roundtrip [200] (by intro b hb; simp at hb; omega),
   base64_roundtrip _ (by intro b hb; simp only [List.mem_replicate] at hb; omega),
   base64_roundtrip _ (by intro b hb; simp only [List.mem_replicate] at hb; omega)⟩
